import Mathlib

/-!
Verification of the EXIF GPS extraction parser of `src/app.js` (location-demo).

The parser receives the raw bytes of a photo plus a MIME-type / filename hint,
locates a TIFF metadata stream inside a JPEG or HEIC container, walks the IFD
directory structure and decodes the GPS sub-directory into decimal degrees.

The embedding below transliterates the source functions:
`isJpeg`, `locateExifSegment`, `locateExifSegmentInHeic`, `parseGpsFromTiff`,
`readIfdEntries`, `readAsciiValue`, `readRationalValues`,
`convertToDecimalDegrees`, `getTypeSize`, `getAscii`, `isHeicFileType` and the
parsing core of `extractGpsFromFile`.

Modelling choices:
* byte buffers are `List Nat`; `DataView.getUintN` reads are `u8`/`u16`/`u32`;
  every read site of the source is guarded by the same bounds test as the
  source, except the one unguarded site in `locateExifSegment`
  (`getUint8(headerStart + 4)` / `getUint8(headerStart + 5)`), where the
  possible `RangeError` thrown by `DataView` is modelled explicitly by the
  `LocateResult.oob` outcome;
* JavaScript strings that originate from bytes are byte lists
  (`"Exif" = [69, 120, 105, 102]`, `"II" = [73, 73]`, `"MM" = [77, 77]`);
* JavaScript number arithmetic on the decoded rationals is modelled exactly
  over `ℚ`; the non-finite values (`NaN` from fewer than 3 components,
  `Infinity`/`NaN` from a zero denominator) that the source filters with
  `Number.isFinite` are modelled by `Option.none`;
* the JS `Map` of directory entries is an association list whose `get` is
  last-wins, matching `Map.set`/`Map.get` observably.
-/

namespace LocationDemo

/-- A byte buffer: the `DataView` over the raw `ArrayBuffer` of the file. -/
abbrev Buffer := List Nat

/-- `DataView.getUint8 off` at an in-bounds offset. Every caller below guards
bounds exactly as the source does (the single unguarded read of the source is
modelled separately in `jpegWalkFrom`). -/
def u8 (buf : Buffer) (off : Nat) : Nat := buf.getD off 0

/-- `DataView.getUint16 off littleEndian`. -/
def u16 (buf : Buffer) (off : Nat) (littleEndian : Bool) : Nat :=
  if littleEndian then u8 buf off + 256 * u8 buf (off + 1)
  else 256 * u8 buf off + u8 buf (off + 1)

/-- `DataView.getUint32 off littleEndian`. -/
def u32 (buf : Buffer) (off : Nat) (littleEndian : Bool) : Nat :=
  if littleEndian then
    u8 buf off + 256 * u8 buf (off + 1) + 65536 * u8 buf (off + 2) +
      16777216 * u8 buf (off + 3)
  else
    16777216 * u8 buf off + 65536 * u8 buf (off + 1) + 256 * u8 buf (off + 2) +
      u8 buf (off + 3)

/-- `getAscii(dataView, offset, length)` of the source: the empty string when
the requested range does not fit in the buffer, otherwise the `len` bytes
starting at `off`. -/
def getAscii (buf : Buffer) (off len : Nat) : List Nat :=
  if buf.length < off + len then []
  else (List.range len).map fun i => u8 buf (off + i)

/-- `isJpeg` of the source: requires at least 4 bytes, then compares the
big-endian 16-bit word at offset 0 with the SOI marker `0xffd8`. -/
def isJpeg (buf : Buffer) : Bool :=
  if buf.length < 4 then false
  else u16 buf 0 false == 0xffd8

/-- The `{tiffOffset, littleEndian}` record both locators return. -/
structure TiffStream where
  tiffOffset : Nat
  littleEndian : Bool
deriving DecidableEq

/-- The ASCII bytes of `"Exif"`. -/
def exifAscii : List Nat := [69, 120, 105, 102]

/-- The ASCII bytes of `"II"`. -/
def asciiII : List Nat := [73, 73]

/-- The ASCII bytes of `"MM"`. -/
def asciiMM : List Nat := [77, 77]

/-- Outcome of the JPEG segment walk `locateExifSegment`: the located TIFF
stream, the `null` return (no metadata / invalid byte order), or the
`RangeError` that `DataView.getUint8` throws at the unguarded source read
past the end of the buffer. -/
inductive LocateResult where
  | found : TiffStream → LocateResult
  | notFound : LocateResult
  | oob : LocateResult
deriving DecidableEq

/-- The body of the `while` loop of `locateExifSegment`, from a given marker
offset. Transliterated from the source: a non-`0xff` byte or the `0xda` (SOS)
marker stops the walk; an APP1 (`0xe1`) segment of length at least 8 whose
body starts with `"Exif"` and two zero bytes carries the TIFF stream at body
offset 6; the walk otherwise advances by `2 + 2 + length`. The two zero-byte
reads are the only unguarded `DataView` accesses in the source and yield `.oob`
when past the end. -/
def jpegWalkFrom (buf : Buffer) (offset : Nat) : LocateResult :=
  if h : offset + 4 < buf.length then
    if u8 buf offset ≠ 0xff then .notFound
    else if u8 buf (offset + 1) = 0xda then .notFound
    else if u8 buf (offset + 1) = 0xe1 ∧ 8 ≤ u16 buf (offset + 2) false then
      if getAscii buf (offset + 4) 4 = exifAscii then
        if buf.length ≤ offset + 8 then .oob
        else if u8 buf (offset + 8) ≠ 0 then
          jpegWalkFrom buf (offset + 2 + 2 + u16 buf (offset + 2) false)
        else if buf.length ≤ offset + 9 then .oob
        else if u8 buf (offset + 9) ≠ 0 then
          jpegWalkFrom buf (offset + 2 + 2 + u16 buf (offset + 2) false)
        else if getAscii buf (offset + 10) 2 ≠ asciiII ∧
            getAscii buf (offset + 10) 2 ≠ asciiMM then .notFound
        else .found ⟨offset + 10, getAscii buf (offset + 10) 2 == asciiII⟩
      else jpegWalkFrom buf (offset + 2 + 2 + u16 buf (offset + 2) false)
    else jpegWalkFrom buf (offset + 2 + 2 + u16 buf (offset + 2) false)
  else .notFound
termination_by buf.length - offset
decreasing_by all_goals omega

/-- `locateExifSegment` of the source: the segment walk starting at offset 2. -/
def locateExifSegment (buf : Buffer) : LocateResult := jpegWalkFrom buf 2

/-- Comparison walker following the specification text of section 4.2 -- "the
locator advances by `2 (marker) + length` to reach the next marker" (the
segment length includes the length field itself, as in the JPEG standard).
It differs from the `jpegWalkFrom` of the source only in the advance:
`offset + 2 + length` instead of `offset + 2 + 2 + length`. -/
def jpegWalkSpecFrom (buf : Buffer) (offset : Nat) : LocateResult :=
  if h : offset + 4 < buf.length then
    if u8 buf offset ≠ 0xff then .notFound
    else if u8 buf (offset + 1) = 0xda then .notFound
    else if u8 buf (offset + 1) = 0xe1 ∧ 8 ≤ u16 buf (offset + 2) false then
      if getAscii buf (offset + 4) 4 = exifAscii then
        if buf.length ≤ offset + 8 then .oob
        else if u8 buf (offset + 8) ≠ 0 then
          jpegWalkSpecFrom buf (offset + 2 + u16 buf (offset + 2) false)
        else if buf.length ≤ offset + 9 then .oob
        else if u8 buf (offset + 9) ≠ 0 then
          jpegWalkSpecFrom buf (offset + 2 + u16 buf (offset + 2) false)
        else if getAscii buf (offset + 10) 2 ≠ asciiII ∧
            getAscii buf (offset + 10) 2 ≠ asciiMM then .notFound
        else .found ⟨offset + 10, getAscii buf (offset + 10) 2 == asciiII⟩
      else jpegWalkSpecFrom buf (offset + 2 + u16 buf (offset + 2) false)
    else jpegWalkSpecFrom buf (offset + 2 + u16 buf (offset + 2) false)
  else .notFound
termination_by buf.length - offset
decreasing_by all_goals omega

/-- The spec-conformant JPEG locator (see `jpegWalkSpecFrom`). -/
def locateExifSegmentSpec (buf : Buffer) : LocateResult := jpegWalkSpecFrom buf 2

/-- The 6-byte signature `"Exif\x00\x00"` scanned for by the HEIC locator. -/
def heicSignature : List Nat := [69, 120, 105, 102, 0, 0]

/-- The inner signature-comparison loop of the source: do the 6 bytes at `offset`
equal `"Exif\x00\x00"`. -/
def heicSigAt (buf : Buffer) (offset : Nat) : Bool :=
  (List.range heicSignature.length).all fun i =>
    u8 buf (offset + i) == heicSignature.getD i 0

/-- One iteration of the scan loop of `locateExifSegmentInHeic` at a given start
offset: `none` means `continue` (no signature match, fewer than 8 bytes after
the signature, or a byte-order marker that is neither `"II"` nor `"MM"`);
`some` means `return`. -/
def heicCheckAt (buf : Buffer) (offset : Nat) : Option TiffStream :=
  if heicSigAt buf offset then
    if buf.length < offset + 6 + 8 then none
    else if getAscii buf (offset + 6) 2 ≠ asciiII ∧
        getAscii buf (offset + 6) 2 ≠ asciiMM then none
    else some ⟨offset + 6, getAscii buf (offset + 6) 2 == asciiII⟩
  else none

/-- `locateExifSegmentInHeic` of the source: the scan loop
`for (offset = 0; offset <= byteLength - 6 - 2; offset += 1)`. An offset is
iterated exactly when `offset + 8 <= byteLength`, i.e. the loop range is
`List.range (byteLength - 7)`; the first offset whose check returns a stream
wins, `null` (here `none`) otherwise. -/
def locateExifSegmentInHeic (buf : Buffer) : Option TiffStream :=
  (List.range (buf.length - 7)).findSome? (heicCheckAt buf)

/-- `getTypeSize` of the source: element width per TIFF field type. -/
def getTypeSize (type : Nat) : Nat :=
  match type with
  | 1 | 2 | 7 => 1
  | 3 => 2
  | 4 | 9 => 4
  | 5 | 10 => 8
  | _ => 0

/-- One decoded IFD entry, as stored by `readIfdEntries`. -/
structure IfdEntry where
  type : Nat
  count : Nat
  dataOffset : Nat
  valueOrOffset : Nat
  valueSize : Nat
deriving DecidableEq

/-- The JS `Map` of entries, as an insertion-ordered association list. -/
abbrev Directory := List (Nat × IfdEntry)

/-- `entries.set(tag, entry)`: appended; `mapGet` is last-wins, so this is
observably `Map.set`. -/
def mapSet (entries : Directory) (tag : Nat) (entry : IfdEntry) : Directory :=
  entries ++ [(tag, entry)]

/-- `entries.get(tag)` (and `entries.has(tag)` via `Option.isSome`). -/
def mapGet (entries : Directory) (tag : Nat) : Option IfdEntry :=
  entries.foldl (fun acc p => if p.1 = tag then some p.2 else acc) none

/-- The entry loop of `readIfdEntries`: `fuel` is the number of remaining
records (initially the 16-bit entry count), `cursor` the current record
offset. A record whose 12 bytes would pass the buffer end stops the loop
(`break`); an unrecognized field type, or an out-of-line value that would pass
the buffer end, skips the record (`continue`). -/
def ifdLoop (buf : Buffer) (littleEndian : Bool) (baseOffset : Nat) :
    Nat → Directory → Nat → Directory
  | _, acc, 0 => acc
  | cursor, acc, fuel + 1 =>
    if buf.length < cursor + 12 then acc
    else
      let tag := u16 buf cursor littleEndian
      let type := u16 buf (cursor + 2) littleEndian
      let count := u32 buf (cursor + 4) littleEndian
      let valueOrOffset := u32 buf (cursor + 8) littleEndian
      let unitSize := getTypeSize type
      if unitSize = 0 then ifdLoop buf littleEndian baseOffset (cursor + 12) acc fuel
      else
        let valueSize := unitSize * count
        if 4 < valueSize then
          let dataOffset := baseOffset + valueOrOffset
          if buf.length < dataOffset + valueSize then
            ifdLoop buf littleEndian baseOffset (cursor + 12) acc fuel
          else
            ifdLoop buf littleEndian baseOffset (cursor + 12)
              (mapSet acc tag ⟨type, count, dataOffset, valueOrOffset, valueSize⟩) fuel
        else
          ifdLoop buf littleEndian baseOffset (cursor + 12)
            (mapSet acc tag ⟨type, count, cursor + 8, valueOrOffset, valueSize⟩) fuel

/-- `readIfdEntries` of the source. Directory offsets are naturals here (in
the source they are sums of unsigned reads, hence nonnegative), so the
source guard `offset <= 0` is `offset = 0` here. When the guard or the 2-byte
entry-count read fails, the empty directory is returned. -/
def readIfdEntries (buf : Buffer) (offset : Nat) (littleEndian : Bool)
    (baseOffset : Nat) : Directory :=
  if offset = 0 ∨ buf.length < offset + 2 then []
  else ifdLoop buf littleEndian baseOffset (offset + 2) [] (u16 buf offset littleEndian)

/-- The byte loop of `readAsciiValue`: up to `fuel` bytes starting at
`pointer`, stopping at the buffer end or at the first zero byte. -/
def asciiLoop (buf : Buffer) : Nat → Nat → List Nat
  | _, 0 => []
  | pointer, fuel + 1 =>
    if buf.length ≤ pointer then []
    else if u8 buf pointer = 0 then []
    else u8 buf pointer :: asciiLoop buf (pointer + 1) fuel

/-- `readAsciiValue` of the source: the characters in
`[entry.dataOffset, entry.dataOffset + entry.count)`, truncated at the buffer
end and at the first zero byte. -/
def readAsciiValue (buf : Buffer) (entry : IfdEntry) : List Nat :=
  asciiLoop buf entry.dataOffset entry.count

/-- An EXIF unsigned rational: 32-bit numerator and denominator. -/
structure Rational where
  numerator : Nat
  denominator : Nat
deriving DecidableEq

/-- The loop of `readRationalValues`: reads `fuel` more rationals of 8 bytes
each, starting at element `index`; a denominator read past the buffer end or
a zero denominator aborts the whole read with `null` (`none`). -/
def ratLoop (buf : Buffer) (littleEndian : Bool) (dataOffset : Nat) :
    Nat → Nat → Option (List Rational)
  | _, 0 => some []
  | index, fuel + 1 =>
    let numeratorOffset := dataOffset + index * 8
    let denominatorOffset := numeratorOffset + 4
    if buf.length < denominatorOffset + 4 then none
    else
      let numerator := u32 buf numeratorOffset littleEndian
      let denominator := u32 buf denominatorOffset littleEndian
      if denominator = 0 then none
      else
        match ratLoop buf littleEndian dataOffset (index + 1) fuel with
        | none => none
        | some rest => some (⟨numerator, denominator⟩ :: rest)

/-- `readRationalValues` of the source. -/
def readRationalValues (buf : Buffer) (entry : IfdEntry) (littleEndian : Bool) :
    Option (List Rational) :=
  ratLoop buf littleEndian entry.dataOffset 0 entry.count

/-- The code points `String.prototype.trim` removes (those representable from
`String.fromCharCode`). -/
def jsIsWhitespace (c : Nat) : Bool :=
  ([9, 10, 11, 12, 13, 32, 160, 5760, 8192, 8193, 8194, 8195, 8196, 8197, 8198,
    8199, 8200, 8201, 8202, 8232, 8233, 8239, 8287, 12288, 65279] : List Nat).contains c

/-- `String.prototype.trim`. -/
def jsTrim (l : List Nat) : List Nat :=
  ((l.dropWhile jsIsWhitespace).reverse.dropWhile jsIsWhitespace).reverse

/-- `String.prototype.toUpperCase` on one code point (restricted to the
points reachable from single-byte characters; `0xdf` expands to `"SS"`). -/
def jsUpperChar (c : Nat) : List Nat :=
  if 97 ≤ c ∧ c ≤ 122 then [c - 32]
  else if c = 181 then [924]
  else if c = 223 then [83, 83]
  else if 224 ≤ c ∧ c ≤ 254 ∧ c ≠ 247 then [c - 32]
  else if c = 255 then [376]
  else [c]

/-- `String.prototype.toUpperCase`. -/
def jsToUpper (l : List Nat) : List Nat := (l.map jsUpperChar).flatten

/-- The sign `convertToDecimalDegrees` applies: `-1` when the trimmed,
upper-cased reference is `"S"` (83) or `"W"` (87), `+1` otherwise. -/
def gpsSign (ref : List Nat) : ℚ :=
  if jsToUpper (jsTrim ref) = [83] ∨ jsToUpper (jsTrim ref) = [87] then -1 else 1

/-- `convertToDecimalDegrees` of the source, over exact rationals.
`Option.none` stands for the non-finite JS numbers the caller filters with
`Number.isFinite`: the `NaN` returned for fewer than 3 components, and the
`Infinity`/`NaN` produced by a zero denominator among the first three
components (with 32-bit numerators and nonzero denominators the JS result is
always finite). -/
def convertToDecimalDegrees (values : List Rational) (ref : List Nat) : Option ℚ :=
  match values with
  | d :: m :: s :: _ =>
    if d.denominator = 0 ∨ m.denominator = 0 ∨ s.denominator = 0 then none
    else
      let degrees : ℚ := (d.numerator : ℚ) / (d.denominator : ℚ)
      let minutes : ℚ := (m.numerator : ℚ) / (m.denominator : ℚ)
      let seconds : ℚ := (s.numerator : ℚ) / (s.denominator : ℚ)
      let result : ℚ := degrees + minutes / 60 + seconds / 3600
      if jsToUpper (jsTrim ref) = [83] ∨ jsToUpper (jsTrim ref) = [87] then
        some (-result)
      else some result
  | _ => none

/-- `parseGpsFromTiff` of the source. `none` is the `null` of the source (no GPS
pointer, missing GPS tags, failed rational read, or a non-finite conversion
result). -/
def parseGpsFromTiff (buf : Buffer) (exifInfo : TiffStream) : Option (ℚ × ℚ) :=
  if buf.length < exifInfo.tiffOffset + 8 then none
  else
    let tiffOffset := exifInfo.tiffOffset
    let littleEndian := exifInfo.littleEndian
    let firstIfdOffset := u32 buf (tiffOffset + 4) littleEndian
    let ifdStart := tiffOffset + firstIfdOffset
    let firstIfd := readIfdEntries buf ifdStart littleEndian tiffOffset
    match mapGet firstIfd 0x8825 with
    | none => none
    | some gpsInfo =>
      let gpsIfdStart := tiffOffset + gpsInfo.valueOrOffset
      let gpsIfd := readIfdEntries buf gpsIfdStart littleEndian tiffOffset
      match mapGet gpsIfd 0x0001, mapGet gpsIfd 0x0002,
          mapGet gpsIfd 0x0003, mapGet gpsIfd 0x0004 with
      | some latRefEntry, some latEntry, some lonRefEntry, some lonEntry =>
        let latRef := readAsciiValue buf latRefEntry
        let lonRef := readAsciiValue buf lonRefEntry
        match readRationalValues buf latEntry littleEndian,
            readRationalValues buf lonEntry littleEndian with
        | some latValues, some lonValues =>
          match convertToDecimalDegrees latValues latRef,
              convertToDecimalDegrees lonValues lonRef with
          | some latitude, some longitude => some (latitude, longitude)
          | _, _ => none
        | _, _ => none
      | _, _, _, _ => none

/-- `String.prototype.toLowerCase` on one code point (points reachable from
hint strings). -/
def jsLowerChar (c : Nat) : Nat :=
  if 65 ≤ c ∧ c ≤ 90 then c + 32
  else if 192 ≤ c ∧ c ≤ 222 ∧ c ≠ 215 then c + 32
  else if c = 376 then 255
  else c

/-- `String.prototype.toLowerCase`. -/
def jsToLower (l : List Nat) : List Nat := l.map jsLowerChar

/-- `String.prototype.includes`. -/
def jsIncludes (hay needle : List Nat) : Bool :=
  match hay with
  | [] => needle.isEmpty
  | c :: t => needle.isPrefixOf (c :: t) || jsIncludes t needle

/-- `isHeicFileType` of the source: the (already lower-cased) MIME type
contains `"heic"` or `"heif"`, or the (already lower-cased) name ends in
`".heic"` or `".heif"`. -/
def isHeicFileType (type name : List Nat) : Bool :=
  jsIncludes type [104, 101, 105, 99] || jsIncludes type [104, 101, 105, 102] ||
    List.isSuffixOf [46, 104, 101, 105, 99] name ||
    List.isSuffixOf [46, 104, 101, 105, 102] name

/-- The observable outcomes of `extractGpsFromFile`: a coordinate; the `null`
return (parse found no GPS data or a malformed value); the three distinct
thrown messages (unsupported format, HEIC locate failure, JPEG locate
failure); or the uncaught `RangeError` from an out-of-bounds `DataView` read. -/
inductive ExtractResult where
  | found : ℚ → ℚ → ExtractResult
  | noCoordinates : ExtractResult
  | unsupportedFormat : ExtractResult
  | heicNoMetadata : ExtractResult
  | jpegNoMetadata : ExtractResult
  | rangeError : ExtractResult
deriving DecidableEq

/-- The HEIC branch of `extractGpsFromFile`: HEIC locator, then the TIFF
parse. -/
def heicPipeline (buf : Buffer) : ExtractResult :=
  match locateExifSegmentInHeic buf with
  | none => .heicNoMetadata
  | some exifInfo =>
    match parseGpsFromTiff buf exifInfo with
    | none => .noCoordinates
    | some (la, lo) => .found la lo

/-- The JPEG branch of `extractGpsFromFile`: JPEG locator, then the TIFF
parse. -/
def jpegPipeline (buf : Buffer) : ExtractResult :=
  match locateExifSegment buf with
  | .oob => .rangeError
  | .notFound => .jpegNoMetadata
  | .found exifInfo =>
    match parseGpsFromTiff buf exifInfo with
    | none => .noCoordinates
    | some (la, lo) => .found la lo

/-- The parsing core of `extractGpsFromFile` (the source first lower-cases
`file.type` and `file.name`, computes the HEIC hint, rejects buffers that are
neither JPEG-signed nor HEIC-hinted, then dispatches to the HEIC scanner when
the hint matches and to the JPEG walker otherwise). -/
def extractGpsFromFile (buf : Buffer) (fileType fileName : List Nat) : ExtractResult :=
  let type := jsToLower fileType
  let name := jsToLower fileName
  let isHeic := isHeicFileType type name
  if !isJpeg buf && !isHeic then .unsupportedFormat
  else if isHeic then
    match locateExifSegmentInHeic buf with
    | none => .heicNoMetadata
    | some exifInfo =>
      match parseGpsFromTiff buf exifInfo with
      | none => .noCoordinates
      | some (la, lo) => .found la lo
  else
    match locateExifSegment buf with
    | .oob => .rangeError
    | .notFound => .jpegNoMetadata
    | .found exifInfo =>
      match parseGpsFromTiff buf exifInfo with
      | none => .noCoordinates
      | some (la, lo) => .found la lo

/-! ## Concrete input buffers used by the claim theorems below -/

/-- A 10-byte JPEG whose APP1 segment is truncated immediately after the
4 ASCII bytes of `"Exif"`: SOI, APP1 marker, declared length 8, `"Exif"`.
On this input the source executes `dataView.getUint8(10)` on a 10-byte
`DataView`, which throws a `RangeError`. -/
def c1buf : Buffer := [0xff, 0xd8, 0xff, 0xe1, 0x00, 0x08, 69, 120, 105, 102]

/-- A 30-byte JPEG: SOI; an APP0 segment with length field 4 (so, per the
JPEG convention that the length includes the length field, the next marker
sits at offset 8); then at offset 8 a well-formed APP1 Exif segment with
byte order `"II"` whose TIFF stream starts at offset 18. -/
def c3buf : Buffer := [255, 216, 255, 224, 0, 4, 0, 0, 255, 225, 0, 20,
  69, 120, 105, 102, 0, 0, 73, 73, 42, 0, 8, 0, 0, 0, 0, 0, 0, 0]

/-- A JPEG whose first segment is a well-formed APP1 `"Exif\x00\x00"` block
followed by the invalid byte-order marker `"XX"` (bytes 88, 88). -/
def badOrderBuf : Buffer := [255, 216, 255, 225, 0, 20, 69, 120, 105, 102, 0, 0, 88, 88, 0, 0]

/-- A 4-byte JPEG-signed buffer with no marker segments at all. -/
def noMetaBuf : Buffer := [255, 216, 0, 0]

/-- A 20-byte buffer that begins with the JPEG SOI signature `0xffd8` and
also contains the HEIC-scan target `"Exif\x00\x00" ++ "II"` at offset 4,
followed by 8 zero bytes. -/
def soiHeicBuf : Buffer := [255, 216, 0, 0, 69, 120, 105, 102, 0, 0, 73, 73,
  0, 0, 0, 0, 0, 0, 0, 0]

/-- The ASCII bytes of the MIME string `"image/heic"`. -/
def heicMime : List Nat := [105, 109, 97, 103, 101, 47, 104, 101, 105, 99]

/-- `"Exif\x00\x00"` at offset 0 followed by the invalid order marker
`"XX"` and 6 further bytes. -/
def heicSigBadBuf : Buffer := [69, 120, 105, 102, 0, 0, 88, 88, 0, 0, 0, 0, 0, 0]

/-- `"Exif\x00\x00"` at offset 0 followed by `"II"` and a 6-byte TIFF header
stub: 14 bytes in total, exactly the minimum the HEIC scan accepts. -/
def heicOkBuf : Buffer := [69, 120, 105, 102, 0, 0, 73, 73, 42, 0, 8, 0, 0, 0]

/-- An 8-byte buffer holding one little-endian rational 1/0. -/
def ratZeroBuf : Buffer := [1, 0, 0, 0, 0, 0, 0, 0]

/-- A RATIONAL (type 5) entry of one element whose data is at offset 0. -/
def ratZeroEntry : IfdEntry := ⟨5, 1, 0, 0, 8⟩

/-! ## Helper lemmas -/

/-- The JPEG walk stops (returns the source `null`) when fewer than 5 bytes
remain at the current offset. -/
lemma jpegWalkFrom_exit (buf : Buffer) (offset : Nat) (h : buf.length ≤ offset + 4) :
    jpegWalkFrom buf offset = .notFound := by
  rw [jpegWalkFrom]
  simp only [dif_neg (by omega : ¬ offset + 4 < buf.length)]

/-- The JPEG walk stops when the byte at the current offset is not `0xff`. -/
lemma jpegWalkFrom_stop (buf : Buffer) (offset : Nat) (h : offset + 4 < buf.length)
    (hff : u8 buf offset ≠ 0xff) : jpegWalkFrom buf offset = .notFound := by
  rw [jpegWalkFrom]
  simp [h, hff]

/-- A marker that is not an APP1 of length at least 8 advances the walk by
`2 + 2 + length`. -/
lemma jpegWalkFrom_advance_nonexif (buf : Buffer) (offset : Nat)
    (h : offset + 4 < buf.length) (hff : u8 buf offset = 0xff)
    (hda : u8 buf (offset + 1) ≠ 0xda)
    (hnot : ¬ (u8 buf (offset + 1) = 0xe1 ∧ 8 ≤ u16 buf (offset + 2) false)) :
    jpegWalkFrom buf offset = jpegWalkFrom buf (offset + 2 + 2 + u16 buf (offset + 2) false) := by
  rw [jpegWalkFrom]
  simp [h, hff, hda, hnot]

/-- When the walk finds an APP1 Exif signature whose first zero-byte slot is
already past the buffer end, the unguarded `getUint8` read throws. -/
lemma jpegWalkFrom_oob_first_zero (buf : Buffer) (offset : Nat)
    (h : offset + 4 < buf.length) (hff : u8 buf offset = 0xff)
    (hda : u8 buf (offset + 1) ≠ 0xda)
    (he1 : u8 buf (offset + 1) = 0xe1) (hlen : 8 ≤ u16 buf (offset + 2) false)
    (hsig : getAscii buf (offset + 4) 4 = exifAscii)
    (hz : buf.length ≤ offset + 8) :
    jpegWalkFrom buf offset = .oob := by
  rw [jpegWalkFrom]
  simp [h, hff, hda, he1, hlen, hsig, hz]

/-- When the walk finds a complete APP1 `"Exif\x00\x00"` block whose byte
order marker is neither `"II"` nor `"MM"`, it returns the same `null` value
it returns when no Exif segment exists at all. -/
lemma jpegWalkFrom_invalid_order (buf : Buffer) (offset : Nat)
    (h : offset + 4 < buf.length) (hff : u8 buf offset = 0xff)
    (hda : u8 buf (offset + 1) ≠ 0xda)
    (he1 : u8 buf (offset + 1) = 0xe1) (hlen : 8 ≤ u16 buf (offset + 2) false)
    (hsig : getAscii buf (offset + 4) 4 = exifAscii)
    (hz1b : offset + 8 < buf.length) (hz1 : u8 buf (offset + 8) = 0)
    (hz2b : offset + 9 < buf.length) (hz2 : u8 buf (offset + 9) = 0)
    (hbo1 : getAscii buf (offset + 10) 2 ≠ asciiII)
    (hbo2 : getAscii buf (offset + 10) 2 ≠ asciiMM) :
    jpegWalkFrom buf offset = .notFound := by
  rw [jpegWalkFrom]
  simp [h, hff, hda, he1, hlen, hsig, hz1, hz2, hbo1, hbo2,
    (show ¬ buf.length ≤ offset + 8 by omega), (show ¬ buf.length ≤ offset + 9 by omega)]

/-- Advance step of the spec-conformant walker: `2 + length`. -/
lemma jpegWalkSpecFrom_advance_nonexif (buf : Buffer) (offset : Nat)
    (h : offset + 4 < buf.length) (hff : u8 buf offset = 0xff)
    (hda : u8 buf (offset + 1) ≠ 0xda)
    (hnot : ¬ (u8 buf (offset + 1) = 0xe1 ∧ 8 ≤ u16 buf (offset + 2) false)) :
    jpegWalkSpecFrom buf offset = jpegWalkSpecFrom buf (offset + 2 + u16 buf (offset + 2) false) := by
  rw [jpegWalkSpecFrom]
  simp [h, hff, hda, hnot]

/-- The spec-conformant walker returns the TIFF stream when it reaches a
complete APP1 Exif block with byte order `"II"`. -/
lemma jpegWalkSpecFrom_found_ii (buf : Buffer) (offset : Nat)
    (h : offset + 4 < buf.length) (hff : u8 buf offset = 0xff)
    (hda : u8 buf (offset + 1) ≠ 0xda)
    (he1 : u8 buf (offset + 1) = 0xe1) (hlen : 8 ≤ u16 buf (offset + 2) false)
    (hsig : getAscii buf (offset + 4) 4 = exifAscii)
    (hz1b : offset + 8 < buf.length) (hz1 : u8 buf (offset + 8) = 0)
    (hz2b : offset + 9 < buf.length) (hz2 : u8 buf (offset + 9) = 0)
    (hbo : getAscii buf (offset + 10) 2 = asciiII) :
    jpegWalkSpecFrom buf offset = .found ⟨offset + 10, true⟩ := by
  rw [jpegWalkSpecFrom]
  simp [h, hff, hda, he1, hlen, hsig, hz1, hz2, hbo,
    (show ¬ buf.length ≤ offset + 8 by omega), (show ¬ buf.length ≤ offset + 9 by omega)]

/-- Unfolded form of `convertToDecimalDegrees` on at least three rationals
with nonzero denominators. -/
lemma convertToDecimalDegrees_cons (d m s : Rational) (rest : List Rational) (ref : List Nat)
    (hd : d.denominator ≠ 0) (hm : m.denominator ≠ 0) (hs : s.denominator ≠ 0) :
    convertToDecimalDegrees (d :: m :: s :: rest) ref =
      some (gpsSign ref *
        ((d.numerator : ℚ) / d.denominator + ((m.numerator : ℚ) / m.denominator) / 60 +
          ((s.numerator : ℚ) / s.denominator) / 3600)) := by
  unfold convertToDecimalDegrees gpsSign
  by_cases h : jsToUpper (jsTrim ref) = [83] ∨ jsToUpper (jsTrim ref) = [87]
  · simp [hd, hm, hs, h]
    try ring
  · simp [hd, hm, hs, h]
    try ring

/-- Fewer than three rational components convert to the non-finite result. -/
lemma convertToDecimalDegrees_short (values : List Rational) (ref : List Nat)
    (h : values.length < 3) : convertToDecimalDegrees values ref = none := by
  rcases values with _ | ⟨a, _ | ⟨b, _ | ⟨c, r⟩⟩⟩
  · rfl
  · rfl
  · rfl
  · exfalso
    simp at h
    omega

/-- An in-bounds `u8` read returns the stored byte. -/
lemma u8_eq_getElem (buf : Buffer) (p : Nat) (h : p < buf.length) :
    u8 buf p = buf[p] := by
  simp [u8, List.getD_eq_getElem?_getD, List.getElem?_eq_getElem h]

/-- The ASCII byte loop returns the in-range bytes of its window, truncated
at the first zero byte: it never depends on positions outside the buffer. -/
lemma asciiLoop_eq (buf : Buffer) : ∀ (fuel pointer : Nat),
    asciiLoop buf pointer fuel =
      ((buf.drop pointer).take fuel).takeWhile (fun c => c != 0) := by
  intro fuel
  induction fuel with
  | zero =>
    intro p
    simp [asciiLoop]
  | succ n ih =>
    intro p
    by_cases hp : buf.length ≤ p
    · rw [asciiLoop, if_pos hp, List.drop_of_length_le hp]
      simp
    · push_neg at hp
      rw [asciiLoop, if_neg (by omega), List.drop_eq_getElem_cons hp, List.take_succ_cons,
        List.takeWhile_cons, u8_eq_getElem buf p hp]
      by_cases h0 : buf[p] = 0
      · simp [h0]
      · simp only [h0, bne_iff_ne, ne_eq, not_false_eq_true, if_true, ih (p + 1)]
        simp [h0]

/-- The IFD entry loop consumes exactly the records that fit before the
buffer end: running it with any fuel equals running it with the fuel clamped
to the number of complete 12-byte records remaining. -/
lemma ifdLoop_min (buf : Buffer) (littleEndian : Bool) (baseOffset : Nat) :
    ∀ (fuel cursor : Nat) (acc : Directory),
      ifdLoop buf littleEndian baseOffset cursor acc fuel =
        ifdLoop buf littleEndian baseOffset cursor acc
          (min fuel ((buf.length - cursor) / 12)) := by
  intro fuel
  induction fuel with
  | zero =>
    intro cursor acc
    simp
  | succ n ih =>
    intro cursor acc
    by_cases h : buf.length < cursor + 12
    · have hk : (buf.length - cursor) / 12 = 0 := by omega
      rw [hk]
      simp [ifdLoop, h]
    · have hk1 : 1 ≤ (buf.length - cursor) / 12 := by omega
      have hmin : min (n + 1) ((buf.length - cursor) / 12) =
          min n ((buf.length - (cursor + 12)) / 12) + 1 := by omega
      rw [hmin]
      simp only [ifdLoop, h, if_false]
      split
      · exact ih (cursor + 12) acc
      · split
        · split
          · exact ih (cursor + 12) acc
          · exact ih (cursor + 12) _
        · exact ih (cursor + 12) _

/-- Every rational in a successful `ratLoop` read has a nonzero denominator. -/
lemma ratLoop_some_dens (buf : Buffer) (littleEndian : Bool) (dataOffset : Nat) :
    ∀ (fuel index : Nat) (l : List Rational),
      ratLoop buf littleEndian dataOffset index fuel = some l →
      ∀ r ∈ l, r.denominator ≠ 0 := by
  intro fuel
  induction fuel with
  | zero =>
    intro idx l h r hr
    simp only [ratLoop] at h
    injection h with h
    subst h
    simp at hr
  | succ n ih =>
    intro idx l h r hr
    simp only [ratLoop] at h
    split_ifs at h with h1 h2
    cases hm : ratLoop buf littleEndian dataOffset (idx + 1) n with
    | none =>
      rw [hm] at h
      exact Option.noConfusion h
    | some rest =>
      rw [hm] at h
      injection h with h
      subst h
      rcases List.mem_cons.mp hr with rfl | hr2
      · exact h2
      · exact ih (idx + 1) rest hm r hr2

/-- When the loop reaches an element whose denominator reads as zero (all
earlier elements being in bounds with nonzero denominators), the whole read
is the source `null`. -/
lemma ratLoop_zero_den (buf : Buffer) (littleEndian : Bool) (dataOffset : Nat) :
    ∀ (fuel index i : Nat), index ≤ i → i < index + fuel →
      (∀ j, index ≤ j → j ≤ i → dataOffset + j * 8 + 8 ≤ buf.length) →
      (∀ j, index ≤ j → j < i → u32 buf (dataOffset + j * 8 + 4) littleEndian ≠ 0) →
      u32 buf (dataOffset + i * 8 + 4) littleEndian = 0 →
      ratLoop buf littleEndian dataOffset index fuel = none := by
  intro fuel
  induction fuel with
  | zero =>
    intro idx i hle hlt _ _ _
    omega
  | succ n ih =>
    intro idx i hle hlt hb hnz hz
    simp only [ratLoop]
    have hbnd : ¬ buf.length < dataOffset + idx * 8 + 4 + 4 := by
      have := hb idx le_rfl hle
      omega
    rw [if_neg hbnd]
    by_cases heq : idx = i
    · subst heq
      rw [if_pos hz]
    · have hlt2 : idx < i := by omega
      rw [if_neg (hnz idx le_rfl hlt2)]
      rw [ih (idx + 1) i (by omega) (by omega)
        (fun j hj1 hj2 => hb j (by omega) hj2)
        (fun j hj1 hj2 => hnz j (by omega) hj2) hz]

/-- If the TIFF parse produces a coordinate, both GPS rational reads (for the
entries looked up under tags 2 and 4 of the GPS IFD) succeeded. -/
lemma parse_some_ratValues (buf : Buffer) (exifInfo : TiffStream) (p : ℚ × ℚ)
    (gpsInfo latEntry lonEntry : IfdEntry)
    (hp : parseGpsFromTiff buf exifInfo = some p)
    (hgps : mapGet (readIfdEntries buf
        (exifInfo.tiffOffset + u32 buf (exifInfo.tiffOffset + 4) exifInfo.littleEndian)
        exifInfo.littleEndian exifInfo.tiffOffset) 0x8825 = some gpsInfo)
    (hlat : mapGet (readIfdEntries buf (exifInfo.tiffOffset + gpsInfo.valueOrOffset)
        exifInfo.littleEndian exifInfo.tiffOffset) 0x0002 = some latEntry)
    (hlon : mapGet (readIfdEntries buf (exifInfo.tiffOffset + gpsInfo.valueOrOffset)
        exifInfo.littleEndian exifInfo.tiffOffset) 0x0004 = some lonEntry) :
    (readRationalValues buf latEntry exifInfo.littleEndian).isSome ∧
    (readRationalValues buf lonEntry exifInfo.littleEndian).isSome := by
  simp only [parseGpsFromTiff] at hp
  split at hp
  · exact Option.noConfusion hp
  · rw [hgps] at hp
    dsimp only at hp
    cases hA : mapGet (readIfdEntries buf (exifInfo.tiffOffset + gpsInfo.valueOrOffset)
        exifInfo.littleEndian exifInfo.tiffOffset) 0x0001 with
    | none =>
      rw [hA, hlat, hlon] at hp
      dsimp only at hp
      exact Option.noConfusion hp
    | some latRefEntry =>
      cases hC : mapGet (readIfdEntries buf (exifInfo.tiffOffset + gpsInfo.valueOrOffset)
          exifInfo.littleEndian exifInfo.tiffOffset) 0x0003 with
      | none =>
        rw [hA, hC, hlat, hlon] at hp
        dsimp only at hp
        exact Option.noConfusion hp
      | some lonRefEntry =>
        rw [hA, hC, hlat, hlon] at hp
        dsimp only at hp
        cases hL : readRationalValues buf latEntry exifInfo.littleEndian with
        | none =>
          rw [hL] at hp
          dsimp only at hp
          exact Option.noConfusion hp
        | some latValues =>
          cases hM : readRationalValues buf lonEntry exifInfo.littleEndian with
          | none =>
            rw [hL, hM] at hp
            dsimp only at hp
            exact Option.noConfusion hp
          | some lonValues => exact ⟨rfl, rfl⟩

/-- An offset without the signature is skipped. -/
lemma heicCheckAt_none_no_sig (buf : Buffer) (o : Nat) (h : heicSigAt buf o = false) :
    heicCheckAt buf o = none := by
  simp [heicCheckAt, h]

/-- An offset with fewer than 8 bytes after the signature is skipped. -/
lemma heicCheckAt_none_no_room (buf : Buffer) (o : Nat) (hr : buf.length < o + 6 + 8) :
    heicCheckAt buf o = none := by
  unfold heicCheckAt
  split_ifs <;> simp_all

/-- An offset whose byte-order marker is invalid is skipped. -/
lemma heicCheckAt_none_bad_order (buf : Buffer) (o : Nat)
    (h1 : getAscii buf (o + 6) 2 ≠ asciiII) (h2 : getAscii buf (o + 6) 2 ≠ asciiMM) :
    heicCheckAt buf o = none := by
  unfold heicCheckAt
  split_ifs <;> simp_all

/-- A successful check leaves at least 8 bytes after the returned offset. -/
lemma heicCheckAt_some_bounds (buf : Buffer) (o : Nat) (ts : TiffStream)
    (h : heicCheckAt buf o = some ts) :
    ts.tiffOffset + 8 ≤ buf.length ∧ ts.tiffOffset = o + 6 := by
  unfold heicCheckAt at h
  split_ifs at h with hs hr hb
  injection h with h
  subst h
  refine ⟨?_, rfl⟩
  show o + 6 + 8 ≤ buf.length
  omega

/-- On `c1buf` the JPEG walk reaches the out-of-bounds `getUint8` read. -/
lemma c1_walk_oob : jpegWalkFrom c1buf 2 = .oob :=
  jpegWalkFrom_oob_first_zero c1buf 2 (by decide) (by decide) (by decide) (by decide)
    (by decide) (by decide) (by decide)

/-- On `soiHeicBuf` the JPEG walk stops at the non-`0xff` byte at offset 2. -/
lemma soiHeicBuf_walk : jpegWalkFrom soiHeicBuf 2 = .notFound :=
  jpegWalkFrom_stop soiHeicBuf 2 (by decide) (by decide)

/-- The source walker misses the Exif APP1 of `c3buf`: it advances from
offset 2 to 10 (instead of 8), reads a non-`0xff` byte there and gives up. -/
lemma c3_walk_code : locateExifSegment c3buf = LocateResult.notFound := by
  unfold locateExifSegment
  rw [jpegWalkFrom_advance_nonexif c3buf 2 (by decide) (by decide) (by decide) (by decide)]
  norm_num [u16, u8, c3buf]
  exact jpegWalkFrom_stop c3buf 10 (by decide) (by decide)

/-- The spec-conformant walker advances from offset 2 to 8 and finds the
Exif APP1 of `c3buf`. -/
lemma c3_walk_spec : locateExifSegmentSpec c3buf = LocateResult.found ⟨18, true⟩ := by
  unfold locateExifSegmentSpec
  rw [jpegWalkSpecFrom_advance_nonexif c3buf 2 (by decide) (by decide) (by decide) (by decide)]
  norm_num [u16, u8, c3buf]
  exact jpegWalkSpecFrom_found_ii c3buf 8 (by decide) (by decide) (by decide) (by decide)
    (by decide) (by decide) (by decide) (by decide) (by decide) (by decide) (by decide)

/-- On `badOrderBuf` the walk returns the source `null`. -/
lemma badOrderBuf_walk : jpegWalkFrom badOrderBuf 2 = .notFound :=
  jpegWalkFrom_invalid_order badOrderBuf 2 (by decide) (by decide) (by decide) (by decide)
    (by decide) (by decide) (by decide) (by decide) (by decide) (by decide) (by decide) (by decide)

/-- On `noMetaBuf` the walk exits immediately. -/
lemma noMetaBuf_walk : jpegWalkFrom noMetaBuf 2 = .notFound :=
  jpegWalkFrom_exit noMetaBuf 2 (by decide)

/-! ## Claim theorems -/

/-- Claim C1. The claim states that the extraction pipeline terminates with a
typed result on every input and never performs an out-of-bounds read or fails
with an unhandled error. The code violates this: on the 10-byte JPEG `c1buf`
(SOI, APP1 of declared length 8, `"Exif"`, then end of buffer) the locator
executes the unguarded `dataView.getUint8(10)` past the buffer end, so
`extractGpsFromFile` ends in the uncaught `RangeError` outcome instead of a
typed result. -/
theorem claim1_uncaught_range_error :
    extractGpsFromFile c1buf [] [] = ExtractResult.rangeError := by
  have h1 : isJpeg c1buf = true := by decide
  have h2 : isHeicFileType (jsToLower []) (jsToLower []) = false := by decide
  simp [extractGpsFromFile, locateExifSegment, h1, h2, c1_walk_oob]

/-- Claim C2, counterexample. The claim states that a buffer whose first two
bytes are `0xffd8` is always classified as JPEG and handled by the JPEG
locator, regardless of length and of a HEIC hint. On `soiHeicBuf` (which
begins `0xffd8`) the result depends on the hint: with the `"image/heic"` MIME
hint the HEIC scanner runs (finds the embedded signature, result
`noCoordinates`), while without a hint the JPEG walker runs (result
`jpegNoMetadata`), and the two results differ; moreover the 2-byte buffer
`[0xff, 0xd8]` is not classified as JPEG at all but rejected as unsupported,
because `isJpeg` requires at least 4 bytes. -/
theorem claim2_counterexample :
    extractGpsFromFile soiHeicBuf heicMime [] = ExtractResult.noCoordinates ∧
    extractGpsFromFile soiHeicBuf [] [] = ExtractResult.jpegNoMetadata ∧
    extractGpsFromFile [255, 216] [] [] = ExtractResult.unsupportedFormat ∧
    ExtractResult.noCoordinates ≠ ExtractResult.jpegNoMetadata := by
  refine ⟨by decide, ?_, by decide, by decide⟩
  have h1 : isJpeg soiHeicBuf = true := by decide
  have h2 : isHeicFileType (jsToLower []) (jsToLower []) = false := by decide
  simp [extractGpsFromFile, locateExifSegment, h1, h2, soiHeicBuf_walk]

/-- Claim C2, amended. The routing of `extractGpsFromFile`: a HEIC-matching
hint always selects the HEIC scanner, even when the buffer begins with
`0xffd8`; the JPEG walker runs only when the hint does not match HEIC and the
buffer passes `isJpeg` (at least 4 bytes beginning `0xffd8`); with neither,
the result is the unsupported-format failure. -/
theorem claim2_routing (buf : Buffer) (fileType fileName : List Nat) :
    extractGpsFromFile buf fileType fileName =
      if isHeicFileType (jsToLower fileType) (jsToLower fileName) then heicPipeline buf
      else if isJpeg buf then jpegPipeline buf
      else ExtractResult.unsupportedFormat := by
  unfold extractGpsFromFile heicPipeline jpegPipeline
  cases hh : isHeicFileType (jsToLower fileType) (jsToLower fileName) <;>
    cases hj : isJpeg buf <;> simp [hh, hj]

/-- Claim C3. The claim (and the spec) say the walker advances to
`marker offset + 2 + length` where the 2-byte length includes the length
field itself. The code advances to `marker offset + 2 + 2 + length`. On
`c3buf` (SOI; APP0 with length 4; a valid Exif APP1 at offset 8) the source
walker jumps from offset 2 to offset 10, lands inside the APP1 segment,
reads a non-`0xff` byte and reports no metadata, while the walker that
advances as the claim states finds the TIFF stream at offset 18. -/
theorem claim3_segment_advance_divergence :
    locateExifSegment c3buf = LocateResult.notFound ∧
    locateExifSegmentSpec c3buf = LocateResult.found ⟨18, true⟩ :=
  ⟨c3_walk_code, c3_walk_spec⟩

/-- Claim C4. For at least 3 rationals with nonzero denominators the
conversion returns exactly
`sign(ref) * (d + m / 60 + s / 3600)` over `ℚ`, where the sign is `-1`
exactly when the trimmed upper-cased reference is `"S"` or `"W"`; with fewer
than 3 rational components the result is the non-finite value (`none`), so no
coordinate is produced. -/
theorem claim4_convert_formula (d m s : Rational) (rest : List Rational) (ref : List Nat)
    (hd : d.denominator ≠ 0) (hm : m.denominator ≠ 0) (hs : s.denominator ≠ 0) :
    convertToDecimalDegrees (d :: m :: s :: rest) ref =
      some (gpsSign ref *
        ((d.numerator : ℚ) / d.denominator + ((m.numerator : ℚ) / m.denominator) / 60 +
          ((s.numerator : ℚ) / s.denominator) / 3600)) ∧
    ∀ values : List Rational, values.length < 3 → convertToDecimalDegrees values ref = none :=
  ⟨convertToDecimalDegrees_cons d m s rest ref hd hm hs,
   fun values h => convertToDecimalDegrees_short values ref h⟩

/-- Witness for C4: the conversion of 35 degrees, 40 minutes, 45.3 seconds
north, and the failure on a single rational. -/
theorem claim4_convert_formula_witness :
    convertToDecimalDegrees [⟨35, 1⟩, ⟨40, 1⟩, ⟨453, 10⟩] [78] =
      some (gpsSign [78] *
        (((35 : Nat) : ℚ) / ((1 : Nat) : ℚ) + (((40 : Nat) : ℚ) / ((1 : Nat) : ℚ)) / 60 +
          (((453 : Nat) : ℚ) / ((10 : Nat) : ℚ)) / 3600)) ∧
    convertToDecimalDegrees [⟨1, 2⟩] [78] = none := by
  have h := claim4_convert_formula ⟨35, 1⟩ ⟨40, 1⟩ ⟨453, 10⟩ [] [78]
    (by decide) (by decide) (by decide)
  exact ⟨h.1, h.2 [⟨1, 2⟩] (by decide)⟩

/-- Claim C5. The HEIC scan: a buffer with no `"Exif\x00\x00"` occurrence
anywhere yields the no-metadata result; an offset whose following byte-order
marker is neither `"II"` nor `"MM"` contributes nothing and the scan simply
continues; and the scan returns no metadata exactly when every iterated
offset fails, so a failure at one offset never aborts the scan. -/
theorem claim5_heic_scan (buf : Buffer) :
    ((∀ o, o + 6 ≤ buf.length → heicSigAt buf o = false) →
      locateExifSegmentInHeic buf = none) ∧
    (∀ o, heicSigAt buf o = true → getAscii buf (o + 6) 2 ≠ asciiII →
      getAscii buf (o + 6) 2 ≠ asciiMM → heicCheckAt buf o = none) ∧
    (locateExifSegmentInHeic buf = none ↔
      ∀ o ∈ List.range (buf.length - 7), heicCheckAt buf o = none) := by
  refine ⟨?_, ?_, ?_⟩
  · intro hno
    unfold locateExifSegmentInHeic
    rw [List.findSome?_eq_none_iff]
    intro o ho
    apply heicCheckAt_none_no_sig
    apply hno
    have := List.mem_range.mp ho
    omega
  · intro o _ h1 h2
    exact heicCheckAt_none_bad_order buf o h1 h2
  · unfold locateExifSegmentInHeic
    exact List.findSome?_eq_none_iff

/-- Witness for C5: a signature at offset 0 followed by the invalid marker
`"XX"` is skipped. -/
theorem claim5_heic_scan_witness : heicCheckAt heicSigBadBuf 0 = none :=
  (claim5_heic_scan heicSigBadBuf).2.1 0 (by decide) (by decide) (by decide)

/-- Claim C6. The directory reader returns the empty directory when the
offset is zero (the nonnegative rendering of `offset <= 0`) or the 2-byte
entry count does not fit; otherwise it reads the 16-bit count and processes
records, and the record loop behaves exactly as if the count were clamped to
the number of complete 12-byte records that fit before the buffer end — a
record that would read past the end terminates the loop with the partial
directory accumulated so far. -/
theorem claim6_ifd_soft_bounds (buf : Buffer) (littleEndian : Bool) (baseOffset offset : Nat) :
    (offset = 0 → readIfdEntries buf offset littleEndian baseOffset = []) ∧
    (buf.length < offset + 2 → readIfdEntries buf offset littleEndian baseOffset = []) ∧
    (offset ≠ 0 → offset + 2 ≤ buf.length →
      readIfdEntries buf offset littleEndian baseOffset =
        ifdLoop buf littleEndian baseOffset (offset + 2) []
          (min (u16 buf offset littleEndian) ((buf.length - (offset + 2)) / 12))) := by
  refine ⟨?_, ?_, ?_⟩
  · intro h
    simp [readIfdEntries, h]
  · intro h
    simp [readIfdEntries, h]
  · intro h1 h2
    unfold readIfdEntries
    rw [if_neg (by push_neg; exact ⟨h1, by omega⟩)]
    exact ifdLoop_min buf littleEndian baseOffset (u16 buf offset littleEndian) (offset + 2) []

/-- Witness for C6: the empty buffer at offset 0, and a 4-byte buffer whose
declared count of 2 entries is clamped to 0 complete records. -/
theorem claim6_ifd_soft_bounds_witness :
    readIfdEntries ([] : Buffer) 0 true 0 = [] ∧
    readIfdEntries [0, 2, 0, 0] 1 true 0 =
      ifdLoop [0, 2, 0, 0] true 0 3 [] (min (u16 [0, 2, 0, 0] 1 true) ((4 - 3) / 12)) :=
  ⟨(claim6_ifd_soft_bounds [] true 0 0).1 rfl,
   (claim6_ifd_soft_bounds [0, 2, 0, 0] true 0 1).2.2 (by decide) (by decide)⟩

/-- Claim C7. Zero denominators: a successful rational read never contains a
zero denominator; a rational whose denominator reads as zero (at a reached
index) makes the whole read fail; and whenever the TIFF parse produces a
coordinate, the rational reads of both GPS value entries succeeded — so a
zero denominator in any GPS value slot means the failure result and no
coordinate, and the zero denominator is never divided by. -/
theorem claim7_zero_denominator (buf : Buffer) :
    (∀ (entry : IfdEntry) (littleEndian : Bool) (l : List Rational),
      readRationalValues buf entry littleEndian = some l → ∀ r ∈ l, r.denominator ≠ 0) ∧
    (∀ (entry : IfdEntry) (littleEndian : Bool) (i : Nat), i < entry.count →
      (∀ j, j ≤ i → entry.dataOffset + j * 8 + 8 ≤ buf.length) →
      (∀ j, j < i → u32 buf (entry.dataOffset + j * 8 + 4) littleEndian ≠ 0) →
      u32 buf (entry.dataOffset + i * 8 + 4) littleEndian = 0 →
      readRationalValues buf entry littleEndian = none) ∧
    (∀ (exifInfo : TiffStream) (p : ℚ × ℚ) (gpsInfo latEntry lonEntry : IfdEntry),
      parseGpsFromTiff buf exifInfo = some p →
      mapGet (readIfdEntries buf
          (exifInfo.tiffOffset + u32 buf (exifInfo.tiffOffset + 4) exifInfo.littleEndian)
          exifInfo.littleEndian exifInfo.tiffOffset) 0x8825 = some gpsInfo →
      mapGet (readIfdEntries buf (exifInfo.tiffOffset + gpsInfo.valueOrOffset)
          exifInfo.littleEndian exifInfo.tiffOffset) 0x0002 = some latEntry →
      mapGet (readIfdEntries buf (exifInfo.tiffOffset + gpsInfo.valueOrOffset)
          exifInfo.littleEndian exifInfo.tiffOffset) 0x0004 = some lonEntry →
      (readRationalValues buf latEntry exifInfo.littleEndian).isSome ∧
      (readRationalValues buf lonEntry exifInfo.littleEndian).isSome) := by
  refine ⟨?_, ?_, ?_⟩
  · intro e le l h
    exact ratLoop_some_dens buf le e.dataOffset e.count 0 l h
  · intro e le i hi hb hnz hz
    exact ratLoop_zero_den buf le e.dataOffset e.count 0 i (Nat.zero_le i) (by omega)
      (fun j _ hj2 => hb j hj2) (fun j _ hj2 => hnz j hj2) hz
  · intro ts p g lat lon hp hgps hlat hlon
    exact parse_some_ratValues buf ts p g lat lon hp hgps hlat hlon

/-- Witness for C7: the rational 1/0 makes the read fail. -/
theorem claim7_zero_denominator_witness :
    readRationalValues ratZeroBuf ratZeroEntry true = none :=
  (claim7_zero_denominator ratZeroBuf).2.1 ratZeroEntry true 0 (by decide)
    (fun j hj => by show 0 + j * 8 + 8 ≤ 8; omega)
    (fun j hj => absurd hj (by omega))
    (by decide)

/-- Claim C8, counterexample. The claim states that an APP1 Exif segment
with an invalid byte-order marker fails with an `InvalidByteOrder` reason
distinct from `NoMetadataFound`. In the code the locator returns the very
same `null` in both situations: `badOrderBuf` (valid Exif signature, order
marker `"XX"`) and `noMetaBuf` (no marker segment at all) produce the
identical `jpegNoMetadata` outcome — no distinct variant exists. -/
theorem claim8_counterexample :
    extractGpsFromFile badOrderBuf [] [] = ExtractResult.jpegNoMetadata ∧
    extractGpsFromFile noMetaBuf [] [] = ExtractResult.jpegNoMetadata := by
  constructor
  · have h1 : isJpeg badOrderBuf = true := by decide
    have h2 : isHeicFileType (jsToLower []) (jsToLower []) = false := by decide
    simp [extractGpsFromFile, locateExifSegment, h1, h2, badOrderBuf_walk]
  · have h1 : isJpeg noMetaBuf = true := by decide
    have h2 : isHeicFileType (jsToLower []) (jsToLower []) = false := by decide
    simp [extractGpsFromFile, locateExifSegment, h1, h2, noMetaBuf_walk]

/-- Claim C8, amended. When the segment walk reaches an APP1 segment carrying
the `"Exif\x00\x00"` signature whose byte-order marker is neither `"II"` nor
`"MM"`, the walk stops immediately and returns the same `null` result that is
reported as no-metadata-found; the code has no separate invalid-byte-order
variant. -/
theorem claim8_invalid_order_collapses (buf : Buffer) (offset : Nat)
    (h : offset + 4 < buf.length) (hff : u8 buf offset = 0xff)
    (hda : u8 buf (offset + 1) ≠ 0xda) (he1 : u8 buf (offset + 1) = 0xe1)
    (hlen : 8 ≤ u16 buf (offset + 2) false)
    (hsig : getAscii buf (offset + 4) 4 = exifAscii)
    (hz1b : offset + 8 < buf.length) (hz1 : u8 buf (offset + 8) = 0)
    (hz2b : offset + 9 < buf.length) (hz2 : u8 buf (offset + 9) = 0)
    (hbo1 : getAscii buf (offset + 10) 2 ≠ asciiII)
    (hbo2 : getAscii buf (offset + 10) 2 ≠ asciiMM) :
    jpegWalkFrom buf offset = LocateResult.notFound :=
  jpegWalkFrom_invalid_order buf offset h hff hda he1 hlen hsig hz1b hz1 hz2b hz2 hbo1 hbo2

/-- Witness for the amended C8 at `badOrderBuf`, offset 2. -/
theorem claim8_invalid_order_collapses_witness :
    jpegWalkFrom badOrderBuf 2 = LocateResult.notFound :=
  claim8_invalid_order_collapses badOrderBuf 2 (by decide) (by decide) (by decide) (by decide)
    (by decide) (by decide) (by decide) (by decide) (by decide) (by decide) (by decide) (by decide)

/-- Claim C9. The ASCII reader is total and bounds-safe: its result is the
prefix of the bytes actually inside the buffer within the declared window
`[dataOffset, dataOffset + count)`, truncated at the first zero byte; a
window lying entirely past the buffer end gives the empty string; and the
conversion treats the empty reference as the positive (north/east) sign: it
returns the plain nonnegative sum, not a malformed value. -/
theorem claim9_ascii_reader_tolerance (buf : Buffer) (entry : IfdEntry) :
    (readAsciiValue buf entry =
      ((buf.drop entry.dataOffset).take entry.count).takeWhile (fun c => c != 0)) ∧
    (buf.length ≤ entry.dataOffset → readAsciiValue buf entry = []) ∧
    (∀ (d m s : Rational) (rest : List Rational),
      d.denominator ≠ 0 → m.denominator ≠ 0 → s.denominator ≠ 0 →
      convertToDecimalDegrees (d :: m :: s :: rest) [] =
        some ((d.numerator : ℚ) / d.denominator + ((m.numerator : ℚ) / m.denominator) / 60 +
          ((s.numerator : ℚ) / s.denominator) / 3600) ∧
      (0 : ℚ) ≤ (d.numerator : ℚ) / d.denominator + ((m.numerator : ℚ) / m.denominator) / 60 +
          ((s.numerator : ℚ) / s.denominator) / 3600) := by
  refine ⟨asciiLoop_eq buf entry.count entry.dataOffset, ?_, ?_⟩
  · intro h
    rw [readAsciiValue, asciiLoop_eq, List.drop_of_length_le h]
    simp
  · intro d m s rest hd hm hs
    constructor
    · have hg : gpsSign [] = 1 := by decide
      rw [convertToDecimalDegrees_cons d m s rest [] hd hm hs, hg, one_mul]
    · positivity

/-- Witness for C9: an out-of-range entry reads as the empty string, and the
empty reference keeps the sum positive. -/
theorem claim9_ascii_reader_tolerance_witness :
    readAsciiValue ([] : Buffer) ratZeroEntry = [] ∧
    convertToDecimalDegrees [⟨1, 1⟩, ⟨0, 1⟩, ⟨0, 1⟩] [] =
      some (((1 : Nat) : ℚ) / ((1 : Nat) : ℚ) + (((0 : Nat) : ℚ) / ((1 : Nat) : ℚ)) / 60 +
        (((0 : Nat) : ℚ) / ((1 : Nat) : ℚ)) / 3600) :=
  ⟨(claim9_ascii_reader_tolerance [] ratZeroEntry).2.1 (by decide),
   ((claim9_ascii_reader_tolerance [] ratZeroEntry).2.2 ⟨1, 1⟩ ⟨0, 1⟩ ⟨0, 1⟩ []
      (by decide) (by decide) (by decide)).1⟩

/-- Claim C10. Every TIFF stream the HEIC scan returns satisfies
`tiffOffset + 8 <= buffer length`, and a signature occurrence with fewer
than 8 bytes after it is skipped (contributes nothing, so the scan goes on
with the next offset) whether or not its marker bytes are valid. -/
theorem claim10_heic_stream_bounds (buf : Buffer) :
    (∀ ts, locateExifSegmentInHeic buf = some ts → ts.tiffOffset + 8 ≤ buf.length) ∧
    (∀ o, heicSigAt buf o = true → buf.length < o + 14 → heicCheckAt buf o = none) := by
  constructor
  · intro ts h
    obtain ⟨o, _, hc⟩ := List.exists_of_findSome?_eq_some h
    exact (heicCheckAt_some_bounds buf o ts hc).1
  · intro o _ hr
    exact heicCheckAt_none_no_room buf o (by omega)

/-- Witness for C10 at `heicOkBuf`, whose scan returns the stream at 6. -/
theorem claim10_heic_stream_bounds_witness :
    (⟨6, true⟩ : TiffStream).tiffOffset + 8 ≤ (heicOkBuf : Buffer).length :=
  (claim10_heic_stream_bounds heicOkBuf).1 ⟨6, true⟩ (by decide)

end LocationDemo
